import Mathlib

/-!
Shallow embedding of the event dispatch and context management subsystem of
the smartapp-sdk-nodejs repository, together with theorems settling the
frozen claims about it.

Source files embedded here:
- src/lib/api-app.js: the SmartApp class (signature verification, webhook
  entry points, event dispatching) and the ApiContext class.
- src/unnamed/part_001: the Signature class.
- src/lib/util/isa-state.js: the IsaState class and putSegmentedName.

JavaScript conventions used throughout the embedding:
- a value that may be undefined is an Option;
- an operation that may throw is an Except JsError;
- an async function body that is wrapped in try catch is first embedded as
  its raw Except-valued body, and the catching function maps every error to
  the caught return value;
- instance fields mutated by a method are threaded as explicit state;
- network calls (key server fetch, context store access) are oracles
  supplied as function-valued environment fields, and each embedding
  returns the list (or count) of such calls it performs so that theorems
  can speak about how often the network is hit.
-/

/-- A JavaScript exception, abstracted to its kind and message. -/
inductive JsError where
  | typeError (msg : String)
  | parseError (msg : String)
  | fetchError (msg : String)
  deriving DecidableEq

/-- An inbound HTTP request, opaque to the embedding: all of its content is
observed through the environment oracles applied to it. -/
structure HttpRequest where
  reqId : Nat
  deriving DecidableEq

/-- The result of httpSignature.parseRequest: the key id named by the
signature envelope plus the signing metadata (opaque here). -/
structure ParsedSignature where
  keyId : String
  sigId : Nat
  deriving DecidableEq

/-- Oracles for the external libraries and the key server used by the
signature verification code: httpSignature.parseRequest,
rp.get / axios.get of the key url, sshpk.parseCertificate (returning the
extracted subject key), and httpSignature.verifySignature. -/
structure SigEnv where
  parseRequest : HttpRequest → Except JsError ParsedSignature
  fetchCert : String → Except JsError String
  parseCertificate : String → Except JsError String
  verifySignature : ParsedSignature → String → Bool

/-- The mutable fields of the SmartApp instance read and written by
_isAuthorized: this._certKeyId and this._certKey, both initially
undefined. -/
structure SigState where
  certKeyId : Option String
  certKey : Option String
  deriving DecidableEq

/-- Lines 335 to 340 of src/lib/api-app.js: parse the cached certificate
with sshpk and verify the request signature against its subject key.
When this._certKey is undefined (never fetched successfully),
sshpk.parseCertificate throws. The state is not modified here, and no
fetch happens here; the fetched list is passed through unchanged. -/
def verifyAgainstCache (env : SigEnv) (st : SigState) (parsed : ParsedSignature)
    (fetched : List String) : Except JsError Bool × SigState × List String :=
  match st.certKey with
  | none => (.error (.typeError "sshpk parseCertificate of undefined"), st, fetched)
  | some certKey =>
    match env.parseCertificate certKey with
    | .error e => (.error e, st, fetched)
    | .ok subjectKey => (.ok (env.verifySignature parsed subjectKey), st, fetched)

/-- The try block of SmartApp._isAuthorized (src/lib/api-app.js lines 328
to 344). Note the source assigns this._certKeyId = parsed.keyId BEFORE
awaiting this._getCertificate, so on a fetch failure the state carries the
new key id with the old certificate. The third component lists the key ids
for which a key server fetch was performed. -/
def isAuthorizedTry (env : SigEnv) (st : SigState) (req : HttpRequest) :
    Except JsError Bool × SigState × List String :=
  match env.parseRequest req with
  | .error e => (.error e, st, [])
  | .ok parsed =>
    if st.certKeyId ≠ some parsed.keyId then
      let st1 : SigState := { st with certKeyId := some parsed.keyId }
      match env.fetchCert parsed.keyId with
      | .error e => (.error e, st1, [parsed.keyId])
      | .ok cert =>
        verifyAgainstCache env { st1 with certKey := some cert } parsed [parsed.keyId]
    else
      verifyAgainstCache env st parsed []

/-- SmartApp._isAuthorized (src/lib/api-app.js lines 327 to 347): the try
body with its catch clause, which logs and returns false on any thrown
error; on a clean run the boolean verification outcome is returned. -/
def isAuthorizedCaught (env : SigEnv) (st : SigState) (req : HttpRequest) :
    Bool × SigState × List String :=
  match isAuthorizedTry env st req with
  | (.ok b, st1, fetched) => (b, st1, fetched)
  | (.error _, st1, fetched) => (false, st1, fetched)

/-- The mutable fields of the Signature class of src/unnamed/part_001:
padlockSignature, this.publicKeyId and this.publicKey. -/
structure SignatureState where
  padlockSignature : Bool
  publicKeyId : Option String
  publicKey : Option String
  deriving DecidableEq

/-- Line 46 of src/unnamed/part_001: verify the parsed signature against
this.publicKey. A call with an undefined key throws inside
httpSignature.verifySignature. -/
def Signature.verifyKey (env : SigEnv) (st : SignatureState) (parsed : ParsedSignature)
    (fetched : List String) : Except JsError Bool × SignatureState × List String :=
  match st.publicKey with
  | none => (.error (.typeError "verifySignature with undefined key"), st, fetched)
  | some pk => (.ok (env.verifySignature parsed pk), st, fetched)

/-- The try block of Signature.isAuthorized (src/unnamed/part_001 lines 37
to 54). Unlike SmartApp._isAuthorized, this class updates this.publicKeyId
and this.publicKey together, only after the fetch and the certificate
parse both succeed. -/
def Signature.isAuthorizedTry (env : SigEnv) (st : SignatureState) (req : HttpRequest) :
    Except JsError Bool × SignatureState × List String :=
  match env.parseRequest req with
  | .error e => (.error e, st, [])
  | .ok parsed =>
    if st.padlockSignature ∧ st.publicKeyId ≠ some parsed.keyId then
      match env.fetchCert parsed.keyId with
      | .error e => (.error e, st, [parsed.keyId])
      | .ok certKey =>
        match env.parseCertificate certKey with
        | .error e => (.error e, st, [parsed.keyId])
        | .ok pem =>
          Signature.verifyKey env
            { st with publicKeyId := some parsed.keyId, publicKey := some pem }
            parsed [parsed.keyId]
    else
      Signature.verifyKey env st parsed []

/-- Signature.isAuthorized (src/unnamed/part_001 lines 36 to 57): the try
body with its catch clause mapping every thrown error to false. -/
def Signature.isAuthorized (env : SigEnv) (st : SignatureState) (req : HttpRequest) :
    Bool × SignatureState × List String :=
  match Signature.isAuthorizedTry env st req with
  | (.ok b, st1, fetched) => (b, st1, fetched)
  | (.error _, st1, fetched) => (false, st1, fetched)

/-- A JavaScript value in boolean position: either an object (such as a
pending Promise, which is always truthy) or an actual boolean. -/
inductive JsCondValue where
  | promiseObject
  | boolean (b : Bool)
  deriving DecidableEq

/-- JavaScript truthiness of a value in an if condition: every object,
including every Promise, is truthy. -/
def JsCondValue.truthy : JsCondValue → Bool
  | .promiseObject => true
  | .boolean b => b

/-- The value of the call expression this._isAuthorized(request) as it
appears on line 360 of src/lib/api-app.js: _isAuthorized is declared
async, so calling it WITHOUT await immediately yields a pending Promise
object; the boolean computed by isAuthorizedCaught would only be obtained
by awaiting it. -/
def isAuthorizedCallExpr (env : SigEnv) (st : SigState) (req : HttpRequest) :
    JsCondValue :=
  .promiseObject

/-- What SmartApp.handleEventCallback does with an inbound request: either
dispatch the body through _handleCallback with an HTTP responder, or
answer 401 Forbidden. -/
inductive HandleEventAction where
  | dispatched
  | responded401Forbidden
  deriving DecidableEq

/-- SmartApp.handleEventCallback (src/lib/api-app.js lines 359 to 365):
tests the truthiness of the unawaited this._isAuthorized(request) call and
branches to dispatch or to the 401 response. -/
def handleEventCallback (env : SigEnv) (st : SigState) (req : HttpRequest) :
    HandleEventAction :=
  if (isAuthorizedCallExpr env st req).truthy then
    HandleEventAction.dispatched
  else
    HandleEventAction.responded401Forbidden

/-- A concrete environment in which signature verification always fails:
the request does not even parse as a signed request. -/
def envParseFail : SigEnv where
  parseRequest := fun _ => .error (.parseError "malformed signature envelope")
  fetchCert := fun _ => .error (.fetchError "unreachable")
  parseCertificate := fun _ => .error (.parseError "unreachable")
  verifySignature := fun _ _ => false

/-- A device command as delivered inside a DEVICE_COMMANDS_EVENT. -/
structure DeviceCommand where
  componentId : String
  capability : String
  command : String
  deriving DecidableEq

/-- The deviceCommandsEvent payload: the target device and the ordered
list of commands. -/
structure DeviceCommandsEvent where
  deviceId : String
  commands : List DeviceCommand
  deriving DecidableEq

/-- One event of an EVENT envelope, discriminated by eventType, carrying
the fields of its payload that the dispatcher reads. -/
inductive AppEvent where
  | installedAppLifecycle (lifecycle : String)
  | deviceEvent (subscriptionName : String)
  | timerEvent (name : String)
  | deviceCommandsEvent (e : DeviceCommandsEvent)
  | modeEvent (modeId : String)
  | securityArmStateEvent (armState : String)
  | otherEvent (eventType : String)
  deriving DecidableEq

/-- Splitting a character list at every occurrence of the separator. -/
def splitChars (sep : Char) : List Char → List (List Char)
  | [] => [[]]
  | c :: rest =>
    let groups := splitChars sep rest
    if c = sep then [] :: groups
    else
      match groups with
      | [] => [[c]]
      | g :: gs => (c :: g) :: gs

/-- The JavaScript String.prototype.split with a one character separator,
as used by subscriptionName.split on an underscore and name.split on a
dot. Splitting never yields an empty list (the empty string splits to a
list holding one empty string, as in JavaScript). -/
def jsSplit (sep : Char) (s : String) : List String :=
  (splitChars sep s.toList).map String.mk

/-- The template literal building the component scoped registry key,
componentId/capability/command (line 450 of src/lib/api-app.js). -/
def compKey (cmd : DeviceCommand) : String :=
  cmd.componentId ++ "/" ++ cmd.capability ++ "/" ++ cmd.command

/-- The template literal building the capability scoped registry key,
capability/command (line 451 of src/lib/api-app.js). -/
def capKey (cmd : DeviceCommand) : String :=
  cmd.capability ++ "/" ++ cmd.command

/-- The handler registries and oracles the dispatcher reads. Handlers are
identified by numbers; run gives the settled outcome of the promise an
invoked handler returns, and contextStoreGet is the context store fetch
performed by withContext when resolving the installed app id. -/
structure DispatchEnv where
  subscribedEventHandlers : List (String × Nat)
  scheduledEventHandlers : List (String × Nat)
  deviceCommandHandler : Option Nat
  deviceCommands : List (String × Nat)
  contextStoreGet : String → Except JsError Unit
  run : Nat → Except JsError Unit

/-- Lines 452 to 455 of src/lib/api-app.js: look the command handler up
under the component scoped key first, falling back to the capability
scoped key; the result also records which key matched. -/
def resolveCommand (env : DispatchEnv) (cmd : DeviceCommand) : Option (String × Nat) :=
  match env.deviceCommands.lookup (compKey cmd) with
  | some h => some (compKey cmd, h)
  | none =>
    match env.deviceCommands.lookup (capKey cmd) with
    | some h => some (capKey cmd, h)
    | none => none

/-- A record of one handler invocation made while processing a
DEVICE_COMMANDS_EVENT. -/
inductive CommandInvocation where
  | catchAll (handler : Nat) (e : DeviceCommandsEvent)
  | keyed (handler : Nat) (key : String) (deviceId : String) (cmd : DeviceCommand)
  | defaultHandler (deviceId : String) (cmd : DeviceCommand)
  deriving DecidableEq

/-- The DEVICE_COMMANDS_EVENT case of _handleCallback (src/lib/api-app.js
lines 444 to 466). The first component lists, in order, the invocations
whose results are pushed onto the collected results; the second lists the
default handler invocations, which are not collected. When a catch-all
handler is registered it is invoked once with the whole event; otherwise
each command is resolved through resolveCommand and unresolved commands go
to the default device command handler. -/
def commandInvocations (env : DispatchEnv) (dce : DeviceCommandsEvent) :
    List CommandInvocation × List CommandInvocation :=
  match env.deviceCommandHandler with
  | some h => ([.catchAll h dce], [])
  | none =>
    (dce.commands.filterMap fun cmd =>
       (resolveCommand env cmd).map fun kh =>
         CommandInvocation.keyed kh.2 kh.1 dce.deviceId cmd,
     dce.commands.filterMap fun cmd =>
       match resolveCommand env cmd with
       | some _ => none
       | none => some (CommandInvocation.defaultHandler dce.deviceId cmd))

/-- The handler identity behind a collected command invocation. -/
def CommandInvocation.handlerId : CommandInvocation → Nat
  | .catchAll h _ => h
  | .keyed h _ _ _ => h
  | .defaultHandler _ _ => 0

/-- One iteration of the event loop of _handleCallback (src/lib/api-app.js
lines 415 to 489): the promises pushed onto results for this event, or the
synchronous error thrown while invoking it. Looking up an absent handler
for a DEVICE_EVENT, TIMER_EVENT, MODE_EVENT or SECURITY_ARM_STATE_EVENT
yields undefined and the call expression handler(context, ...) then throws
a TypeError; lifecycle and unrecognized events push nothing; the
DEVICE_COMMANDS_EVENT case never throws because every lookup is guarded
and the default handler always exists. -/
def eventResults (env : DispatchEnv) : AppEvent → Except JsError (List (Except JsError Unit))
  | .installedAppLifecycle _ => .ok []
  | .deviceEvent subscriptionName =>
    let handlerName := (jsSplit '_' subscriptionName).headD ""
    match env.subscribedEventHandlers.lookup handlerName with
    | none => .error (.typeError "handler is not a function")
    | some h => .ok [env.run h]
  | .timerEvent name =>
    match env.scheduledEventHandlers.lookup name with
    | none => .error (.typeError "handler is not a function")
    | some h => .ok [env.run h]
  | .deviceCommandsEvent dce =>
    .ok ((commandInvocations env dce).1.map fun inv => env.run inv.handlerId)
  | .modeEvent _ =>
    match env.subscribedEventHandlers.lookup "modeChangeHandler" with
    | none => .error (.typeError "handler is not a function")
    | some h => .ok [env.run h]
  | .securityArmStateEvent _ =>
    match env.subscribedEventHandlers.lookup "securityArmStateHandler" with
    | none => .error (.typeError "handler is not a function")
    | some h => .ok [env.run h]
  | .otherEvent _ => .ok []

/-- The whole event loop: the collected promises of all events in array
order, or the first synchronous error, which aborts the loop. -/
def collectResults (env : DispatchEnv) : List AppEvent → Except JsError (List (Except JsError Unit))
  | [] => .ok []
  | ev :: rest =>
    match eventResults env ev with
    | .error e => .error e
    | .ok rs =>
      match collectResults env rest with
      | .error e => .error e
      | .ok rest1 => .ok (rs ++ rest1)

/-- JavaScript Promise.all over already settled outcomes: fulfilled with
the list of values when every input fulfilled, rejected with the first
rejection otherwise (the remaining completions are not awaited). -/
def promiseAll : List (Except JsError Unit) → Except JsError (List Unit)
  | [] => .ok []
  | r :: rest =>
    match r with
    | .error e => .error e
    | .ok a =>
      match promiseAll rest with
      | .error e => .error e
      | .ok l => .ok (a :: l)

/-- The payload handed to responder.respond. -/
structure DispatchResponse where
  statusCode : Nat
  eventData : List (String × String)
  deriving DecidableEq

/-- The eventData of an EVENT envelope: the installed app id used for
context resolution and the ordered event list. -/
structure EventData where
  installedAppId : String
  events : List AppEvent
  deriving DecidableEq

/-- The EVENT case of _handleCallback (src/lib/api-app.js lines 410 to
494): resolve the context (a store fetch that may reject), run the event
loop collecting results, await Promise.all over them, and only then call
responder.respond once with statusCode 200 and empty eventData. The
returned list holds the responses emitted; an error means the async
function rejected and respond was never called. -/
def handleEventBody (env : DispatchEnv) (d : EventData) :
    Except JsError (List DispatchResponse) :=
  match env.contextStoreGet d.installedAppId with
  | .error e => .error e
  | .ok _ =>
    match collectResults env d.events with
    | .error e => .error e
    | .ok results =>
      match promiseAll results with
      | .error e => .error e
      | .ok _ => .ok [{ statusCode := 200, eventData := [] }]

/-- A JSON style JavaScript value as stored in the installed app state:
numbers, strings, nested objects, or undefined. -/
inductive JVal where
  | num (n : Int)
  | str (s : String)
  | obj (fields : List (String × JVal))
  | undefined

/-- Property read on a JavaScript object represented as an ordered field
list: the first binding of the key, or undefined when absent. -/
def lookupField : List (String × JVal) → String → Option JVal
  | [], _ => none
  | (k0, v0) :: rest, k => if k0 = k then some v0 else lookupField rest k

/-- Property write on a JavaScript object represented as an ordered field
list: an existing key is updated in place, a new key is appended. -/
def setField : List (String × JVal) → String → JVal → List (String × JVal)
  | [], k, v => [(k, v)]
  | (k0, v0) :: rest, k, v =>
    if k0 = k then (k0, v) :: rest else (k0, v0) :: setField rest k v

/-- The property read expression item[key] of JavaScript: reading from an
object yields the field or undefined, reading from undefined throws, and
reading a property of a primitive yields undefined. -/
def jsGetProp : JVal → String → Except JsError JVal
  | .obj fields, k => .ok ((lookupField fields k).getD .undefined)
  | .undefined, _ => .error (.typeError "cannot read properties of undefined")
  | .num _, _ => .ok .undefined
  | .str _, _ => .ok .undefined

/-- The walk and final assignment of putSegmentedName (src/lib/util/
isa-state.js lines 43 to 49) on a given root value: follow the leading
path segments with item = item[seg], then assign item[key] = value. The
source creates no intermediate levels: a missing segment leaves item
undefined and the following property access or strict mode assignment
throws; assigning a property of a primitive also throws in strict mode.
The returned value is the root after the aliased in place mutation. -/
def putPath : JVal → List String → String → JVal → Except JsError JVal
  | .obj fields, [], key, v => .ok (.obj (setField fields key v))
  | .obj fields, s :: rest, key, v =>
    match lookupField fields s with
    | some child =>
      match putPath child rest key v with
      | .error e => .error e
      | .ok child2 => .ok (.obj (setField fields s child2))
    | none => .error (.typeError "cannot read properties of undefined")
  | _, _, _, _ => .error (.typeError "cannot set property of a non object")

/-- The receiver of a JavaScript function call: undefined for a plain
(non method) call in a strict mode module, or an IsaState instance whose
private map field currently holds the given cache value. -/
inductive JsReceiver where
  | undefined
  | instanceWithCache (cacheMap : JVal)

/-- putSegmentedName (src/lib/util/isa-state.js lines 39 to 50). It is a
top level plain function whose body starts with let item = this[map]; the
receiver argument is the value of this at the call site. The module is in
strict mode, so the plain call on line 31 binds this to undefined and the
very first line throws. With an instance receiver it splits the name on
dots, takes the last segment as the key and walks the leading segments. -/
def putSegmentedName (thisv : JsReceiver) (name : String) (value : JVal) :
    Except JsError JVal :=
  match thisv with
  | .undefined => .error (.typeError "cannot read properties of undefined")
  | .instanceWithCache cacheMap =>
    let segs := jsSplit '.' name
    let key := segs.getLastD ""
    putPath cacheMap segs.dropLast key value

/-- One call of contextStore.update as performed by IsaState: the
installed app id and the full argument object passed as the second
parameter. -/
structure StoreCall where
  installedAppId : String
  payload : JVal

/-- The fields of an IsaState instance: the installed app id and the
private map field (none models the initial null, not yet loaded cache). -/
structure IsaStateData where
  installedAppId : String
  cache : Option JVal

/-- IsaState.update (src/lib/util/isa-state.js lines 29 to 32). The store
update payload is the object literal written in the source, whose single
state key holds an object with the single literal property key named
name (the source writes a plain, not a computed, property key, so the
dot path string never appears in the payload). After the store call the
source invokes putSegmentedName as a plain function, so its receiver is
undefined and it throws. The result pairs the store calls performed with
the outcome: the thrown error, or the state with the updated cache. -/
def IsaState.update (st : IsaStateData) (name : String) (value : JVal) :
    List StoreCall × Except JsError IsaStateData :=
  let call : StoreCall :=
    { installedAppId := st.installedAppId,
      payload := .obj [("state", .obj [("name", value)])] }
  match putSegmentedName .undefined name value with
  | .error e => ([call], .error e)
  | .ok newMap => ([call], .ok { st with cache := some newMap })

/-- JavaScript truthiness of the optional name argument of IsaState.get:
undefined and the empty string are falsy. -/
def jsTruthyName : Option String → Bool
  | none => false
  | some s => s ≠ ""

/-- Lines 18 to 22 of src/lib/util/isa-state.js, run once the cache is
populated: with a truthy name return this[map][name], a single flat
property access whose key is the whole dot path string; otherwise return
the whole cache. -/
def getFromCache (m : JVal) (st : IsaStateData) (name : Option String) :
    Except JsError (JVal × IsaStateData) :=
  if jsTruthyName name then
    match jsGetProp m (name.getD "") with
    | .error e => .error e
    | .ok v => .ok (v, st)
  else
    .ok (m, st)

/-- The record returned by contextStore.get. -/
structure StoreRecord where
  state : JVal

/-- IsaState.get (src/lib/util/isa-state.js lines 12 to 23): when the
cache is null, fetch the context from the store and populate the cache
(the second component counts the store fetches performed); then read from
the cache via getFromCache. -/
def IsaState.get (storeGet : String → Except JsError StoreRecord)
    (st : IsaStateData) (name : Option String) :
    Except JsError (JVal × IsaStateData) × Nat :=
  match st.cache with
  | none =>
    match storeGet st.installedAppId with
    | .error e => (.error e, 1)
    | .ok ctx => (getFromCache ctx.state { st with cache := some ctx.state } name, 1)
  | some m => (getFromCache m st name, 0)

/-- A mutex instance created by new Mutex(), identified by a number. -/
structure JsMutex where
  mutexId : Nat
  deriving DecidableEq

/-- The static configuration of the SmartApp instance that ApiContext and
withContext read. -/
structure AppConfig where
  clientId : Option String
  clientSecret : Option String
  deriving DecidableEq

/-- The argument object passed to new SmartThingsApi, restricted to the
fields the claims are about. -/
structure SmartThingsApiConfig where
  authToken : Option String
  refreshToken : Option String
  clientId : Option String
  clientSecret : Option String
  locationId : Option String
  installedAppId : Option String
  apiMutex : Option JsMutex
  deriving DecidableEq

/-- The body argument of the ApiContext constructor, discriminated on
messageType exactly as the constructor switch does: EVENT and EXECUTE
bodies carry the installed app of their payload, and any other body is
read as a direct context record. -/
inductive CtxBody where
  | event (installedAppId locationId : String)
  | execute (installedAppId locationId : String)
  | direct (installedAppId locationId authToken refreshToken : Option String)
  deriving DecidableEq

/-- The fields of an ApiContext instance after construction. -/
structure ApiContextData where
  installedAppId : Option String
  locationId : Option String
  authToken : Option String
  refreshToken : Option String
  api : Option SmartThingsApiConfig
  apiMutex : Option JsMutex
  deriving DecidableEq

/-- The ApiContext constructor (src/lib/api-app.js lines 507 to 544).
Line 510 of the source is the bare expression statement this.apiMutex;
with no assignment, so the apiMutex field of the instance is never set and
stays undefined, whatever mutex was passed in; only the default branch,
which constructs an api immediately, hands the constructor parameter
apiMutex itself to new SmartThingsApi. -/
def ApiContext.construct (app : AppConfig) (body : CtxBody) (apiMutex : JsMutex) :
    ApiContextData :=
  match body with
  | .event installedAppId locationId =>
    { installedAppId := some installedAppId, locationId := some locationId,
      authToken := none, refreshToken := none, api := none, apiMutex := none }
  | .execute installedAppId locationId =>
    { installedAppId := some installedAppId, locationId := some locationId,
      authToken := none, refreshToken := none, api := none, apiMutex := none }
  | .direct installedAppId locationId authToken refreshToken =>
    { installedAppId := installedAppId, locationId := locationId,
      authToken := authToken, refreshToken := refreshToken,
      api := some { authToken := authToken, refreshToken := refreshToken,
                    clientId := app.clientId, clientSecret := app.clientSecret,
                    locationId := locationId, installedAppId := installedAppId,
                    apiMutex := some apiMutex },
      apiMutex := none }

/-- The record returned by contextStore.get for an installed app. -/
structure CtxStoreRecord where
  installedAppId : Option String
  authToken : Option String
  refreshToken : Option String
  locationId : Option String
  deriving DecidableEq

/-- The JavaScript expression a or-or b for optional strings: a is taken
when it is defined and non empty, otherwise b. -/
def jsOrStr (a b : Option String) : Option String :=
  match a with
  | none => b
  | some s => if s = "" then b else some s

/-- The new SmartThingsApi argument object built inside the fetching
branch of ApiContext.getApi (src/lib/api-app.js lines 560 to 572). Note
apiMutex is this.apiMutex, the field the constructor never assigned. The
source assigns this.locationId = data.locationId before building the
client, so the client expression this.locationId or-or data.locationId
reads the freshly assigned value; the embedding writes that as
jsOrStr data.locationId data.locationId. -/
def ApiContext.newApi (app : AppConfig) (data : CtxStoreRecord)
    (ctx : ApiContextData) : SmartThingsApiConfig :=
  { authToken := data.authToken, refreshToken := data.refreshToken,
    clientId := app.clientId, clientSecret := app.clientSecret,
    locationId := jsOrStr data.locationId data.locationId,
    installedAppId := ctx.installedAppId,
    apiMutex := ctx.apiMutex }

/-- The instance state after the fetching branch of getApi: credentials
copied from the store record and the freshly built client memoized. -/
def ApiContext.afterGetApi (app : AppConfig) (data : CtxStoreRecord)
    (ctx : ApiContextData) : ApiContextData :=
  { ctx with authToken := data.authToken, refreshToken := data.refreshToken,
             locationId := data.locationId,
             api := some (ApiContext.newApi app data ctx) }

/-- ApiContext.getApi (src/lib/api-app.js lines 553 to 575): return the
memoized api client when this.api is set; otherwise fetch the context
record from the store exactly once, copy its credentials onto the
instance, construct the client and memoize it. The result carries the
client returned, the new instance state, and the number of store fetches
performed. -/
def ApiContext.getApi (app : AppConfig)
    (storeGet : Option String → Except JsError CtxStoreRecord)
    (ctx : ApiContextData) :
    Except JsError (SmartThingsApiConfig × ApiContextData × Nat) :=
  match ctx.api with
  | some api => .ok (api, ctx, 0)
  | none =>
    match storeGet ctx.installedAppId with
    | .error e => .error e
    | .ok data =>
      .ok (ApiContext.newApi app data ctx, ApiContext.afterGetApi app data ctx, 1)

/-- SmartApp.withContext (src/lib/api-app.js lines 393 to 401) for the
string argument case used during dispatch: fetch the context record and
construct an ApiContext from that record (it carries no messageType, so
the constructor takes its default branch) with a fresh mutex created by
this call. -/
def withContext (app : AppConfig)
    (storeGet : String → Except JsError CtxStoreRecord)
    (installedAppId : String) (freshMutex : JsMutex) :
    Except JsError ApiContextData :=
  match storeGet installedAppId with
  | .error e => .error e
  | .ok data =>
    .ok (ApiContext.construct app
      (.direct data.installedAppId data.locationId data.authToken data.refreshToken)
      freshMutex)

/-- A fully succeeding verification environment: requests parse with key id
key1, the key server answers, the certificate parses and every signature
verifies. -/
def envHappy : SigEnv where
  parseRequest := fun _ => .ok { keyId := "key1", sigId := 0 }
  fetchCert := fun _ => .ok "CERTPEM"
  parseCertificate := fun _ => .ok "SUBJECTKEY"
  verifySignature := fun _ _ => true

/-- An environment whose key server is unreachable: requests parse with key
id key1 but every certificate fetch rejects. -/
def envFetchFail : SigEnv where
  parseRequest := fun _ => .ok { keyId := "key1", sigId := 0 }
  fetchCert := fun _ => .error (.fetchError "key server unreachable")
  parseCertificate := fun _ => .ok "SUBJECTKEY"
  verifySignature := fun _ _ => true

/-- A dispatch environment with two scheduled event handlers of which the
first rejects asynchronously and the second fulfils. -/
def c2Env : DispatchEnv where
  subscribedEventHandlers := []
  scheduledEventHandlers := [("alpha", 1), ("beta", 2)]
  deviceCommandHandler := none
  deviceCommands := []
  contextStoreGet := fun _ => .ok ()
  run := fun h => if h = 1 then .error (.typeError "handler one rejected") else .ok ()

/-- An EVENT envelope carrying two timer events for the two scheduled
handlers of c2Env. -/
def c2Data : EventData where
  installedAppId := "ia1"
  events := [.timerEvent "alpha", .timerEvent "beta"]

/-- A dispatch environment identical to c2Env except that both handlers
fulfil. -/
def c2GoodEnv : DispatchEnv where
  subscribedEventHandlers := []
  scheduledEventHandlers := [("alpha", 1), ("beta", 2)]
  deviceCommandHandler := none
  deviceCommands := []
  contextStoreGet := fun _ => .ok ()
  run := fun _ => .ok ()

/-- A dispatch environment with no catch-all device command handler and a
single keyed handler registered under the capability scoped key
switch/on. -/
def c8Env : DispatchEnv where
  subscribedEventHandlers := []
  scheduledEventHandlers := []
  deviceCommandHandler := none
  deviceCommands := [("switch/on", 7)]
  contextStoreGet := fun _ => .ok ()
  run := fun _ => .ok ()

/-- The device command of the worked example: componentId main, capability
switch, command on. -/
def c8Cmd : DeviceCommand where
  componentId := "main"
  capability := "switch"
  command := "on"

/-- A device commands event delivering the single example command. -/
def c8Dce : DeviceCommandsEvent where
  deviceId := "device1"
  commands := [c8Cmd]

/-- App configuration used by the context examples. -/
def ctxApp : AppConfig where
  clientId := some "cid"
  clientSecret := some "sec"

/-- A context store answering every lookup with a fixed record. -/
def ctxStoreOk : Option String → Except JsError CtxStoreRecord :=
  fun _ => .ok { installedAppId := some "ia1", authToken := some "tok",
                 refreshToken := some "ref", locationId := some "loc1" }

/-- The ApiContext produced for an EVENT body with the mutex numbered 1,
as withContext would build it for that dispatch. -/
def c5Ctx : ApiContextData :=
  ApiContext.construct ctxApp (.event "ia1" "loc1") { mutexId := 1 }

/-- The api client record that getApi builds from the ctxStoreOk record
for an instance whose own locationId is loc1. -/
def c9Api : SmartThingsApiConfig where
  authToken := some "tok"
  refreshToken := some "ref"
  clientId := some "cid"
  clientSecret := some "sec"
  locationId := some "loc1"
  installedAppId := some "ia1"
  apiMutex := none

/-- An ApiContext for installed app ia1 with no memoized client. -/
def c9CtxEmpty : ApiContextData where
  installedAppId := some "ia1"
  locationId := none
  authToken := none
  refreshToken := none
  api := none
  apiMutex := none

/-- The c9CtxEmpty context after a successful getApi call: credentials
copied from the store record and the client memoized. -/
def c9CtxLoaded : ApiContextData where
  installedAppId := some "ia1"
  locationId := some "loc1"
  authToken := some "tok"
  refreshToken := some "ref"
  api := some c9Api
  apiMutex := none

/-- The nested state object a b c holding 5, as the spec round trip
example would store it. -/
def c4Nested : JVal :=
  .obj [("a", .obj [("b", .obj [("c", .num 5)])])]

/-- A context store for IsaState that rejects every fetch, so a theorem
mentioning it shows the call under study never reaches the store. -/
def c4StoreDown : String → Except JsError StoreRecord :=
  fun _ => .error (.fetchError "store not reachable")

/-- An IsaState instance whose cache is loaded with an empty state
object. -/
def c3State : IsaStateData where
  installedAppId := "ia1"
  cache := some (.obj [])

/-! Helper lemmas about the signature verifier embeddings. -/

theorem verifyAgainstCache_snd (env : SigEnv) (st : SigState) (p : ParsedSignature)
    (tr : List String) : (verifyAgainstCache env st p tr).2 = (st, tr) := by
  unfold verifyAgainstCache
  split
  · rfl
  · split <;> rfl

theorem verifyAgainstCache_none (env : SigEnv) (st : SigState) (p : ParsedSignature)
    (tr : List String) (hk : st.certKey = none) :
    verifyAgainstCache env st p tr
      = (.error (.typeError "sshpk parseCertificate of undefined"), st, tr) := by
  unfold verifyAgainstCache
  simp only [hk]

theorem verifyAgainstCache_parse_error (env : SigEnv) (st : SigState) (p : ParsedSignature)
    (tr : List String) (ck : String) (e : JsError) (hk : st.certKey = some ck)
    (hpc : env.parseCertificate ck = .error e) :
    verifyAgainstCache env st p tr = (.error e, st, tr) := by
  unfold verifyAgainstCache
  simp only [hk, hpc]

theorem verifyAgainstCache_ok (env : SigEnv) (st : SigState) (p : ParsedSignature)
    (tr : List String) (ck sk : String) (hk : st.certKey = some ck)
    (hpc : env.parseCertificate ck = .ok sk) :
    verifyAgainstCache env st p tr = (.ok (env.verifySignature p sk), st, tr) := by
  unfold verifyAgainstCache
  simp only [hk, hpc]

theorem isAuthorizedTry_parse_error (env : SigEnv) (st : SigState) (req : HttpRequest)
    (e : JsError) (hp : env.parseRequest req = .error e) :
    isAuthorizedTry env st req = (.error e, st, []) := by
  unfold isAuthorizedTry
  simp only [hp]

theorem isAuthorizedTry_hit (env : SigEnv) (st : SigState) (req : HttpRequest)
    (p : ParsedSignature) (hp : env.parseRequest req = .ok p)
    (hc : st.certKeyId = some p.keyId) :
    isAuthorizedTry env st req = verifyAgainstCache env st p [] := by
  unfold isAuthorizedTry
  simp only [hp]
  rw [if_neg (not_not_intro hc)]

theorem isAuthorizedTry_miss_fetch_error (env : SigEnv) (st : SigState) (req : HttpRequest)
    (p : ParsedSignature) (e : JsError) (hp : env.parseRequest req = .ok p)
    (hc : st.certKeyId ≠ some p.keyId) (hf : env.fetchCert p.keyId = .error e) :
    isAuthorizedTry env st req
      = (.error e, { st with certKeyId := some p.keyId }, [p.keyId]) := by
  unfold isAuthorizedTry
  simp only [hp]
  rw [if_pos hc]
  simp only [hf]

theorem isAuthorizedTry_miss_fetch_ok (env : SigEnv) (st : SigState) (req : HttpRequest)
    (p : ParsedSignature) (cert : String) (hp : env.parseRequest req = .ok p)
    (hc : st.certKeyId ≠ some p.keyId) (hf : env.fetchCert p.keyId = .ok cert) :
    isAuthorizedTry env st req
      = verifyAgainstCache env { st with certKeyId := some p.keyId, certKey := some cert }
          p [p.keyId] := by
  unfold isAuthorizedTry
  simp only [hp]
  rw [if_pos hc]
  simp only [hf]

theorem isAuthorizedCaught_of_error (env : SigEnv) (st : SigState) (req : HttpRequest)
    (e : JsError) (st1 : SigState) (tr : List String)
    (h : isAuthorizedTry env st req = (.error e, st1, tr)) :
    isAuthorizedCaught env st req = (false, st1, tr) := by
  unfold isAuthorizedCaught
  simp only [h]

theorem isAuthorizedCaught_of_ok (env : SigEnv) (st : SigState) (req : HttpRequest)
    (b : Bool) (st1 : SigState) (tr : List String)
    (h : isAuthorizedTry env st req = (.ok b, st1, tr)) :
    isAuthorizedCaught env st req = (b, st1, tr) := by
  unfold isAuthorizedCaught
  simp only [h]

theorem isAuthorizedCaught_snd (env : SigEnv) (st : SigState) (req : HttpRequest) :
    (isAuthorizedCaught env st req).2 = (isAuthorizedTry env st req).2 := by
  unfold isAuthorizedCaught
  rcases h : isAuthorizedTry env st req with ⟨r, st1, tr⟩
  cases r <;> simp

theorem isAuthorizedTry_keyId (env : SigEnv) (st : SigState) (req : HttpRequest)
    (p : ParsedSignature) (hp : env.parseRequest req = .ok p) :
    ((isAuthorizedTry env st req).2.1).certKeyId = some p.keyId := by
  by_cases hc : st.certKeyId = some p.keyId
  · rw [isAuthorizedTry_hit env st req p hp hc, verifyAgainstCache_snd]
    exact hc
  · cases hf : env.fetchCert p.keyId with
    | error e => rw [isAuthorizedTry_miss_fetch_error env st req p e hp hc hf]
    | ok cert => rw [isAuthorizedTry_miss_fetch_ok env st req p cert hp hc hf,
                     verifyAgainstCache_snd]

theorem isAuthorizedCaught_keyId (env : SigEnv) (st : SigState) (req : HttpRequest)
    (p : ParsedSignature) (hp : env.parseRequest req = .ok p) :
    ((isAuthorizedCaught env st req).2.1).certKeyId = some p.keyId := by
  rw [isAuthorizedCaught_snd]
  exact isAuthorizedTry_keyId env st req p hp

theorem isAuthorizedCaught_hit_trace (env : SigEnv) (st : SigState) (req : HttpRequest)
    (p : ParsedSignature) (hp : env.parseRequest req = .ok p)
    (hc : st.certKeyId = some p.keyId) :
    (isAuthorizedCaught env st req).2.2 = [] := by
  have h := isAuthorizedCaught_snd env st req
  rw [isAuthorizedTry_hit env st req p hp hc, verifyAgainstCache_snd] at h
  exact congrArg Prod.snd h

theorem isAuthorizedTry_trace_len (env : SigEnv) (st : SigState) (req : HttpRequest) :
    (isAuthorizedTry env st req).2.2.length ≤ 1 := by
  cases hp : env.parseRequest req with
  | error e => rw [isAuthorizedTry_parse_error env st req e hp]; simp
  | ok p =>
    by_cases hc : st.certKeyId = some p.keyId
    · rw [isAuthorizedTry_hit env st req p hp hc, verifyAgainstCache_snd]
      simp
    · cases hf : env.fetchCert p.keyId with
      | error e =>
        rw [isAuthorizedTry_miss_fetch_error env st req p e hp hc hf]
        simp
      | ok cert =>
        rw [isAuthorizedTry_miss_fetch_ok env st req p cert hp hc hf, verifyAgainstCache_snd]
        simp

theorem isAuthorizedCaught_trace_len (env : SigEnv) (st : SigState) (req : HttpRequest) :
    (isAuthorizedCaught env st req).2.2.length ≤ 1 := by
  have h := congrArg Prod.snd (isAuthorizedCaught_snd env st req)
  rw [h]
  exact isAuthorizedTry_trace_len env st req

theorem Signature.isAuthorized_of_error (env : SigEnv) (st : SignatureState)
    (req : HttpRequest) (e : JsError) (st1 : SignatureState) (tr : List String)
    (h : Signature.isAuthorizedTry env st req = (.error e, st1, tr)) :
    Signature.isAuthorized env st req = (false, st1, tr) := by
  unfold Signature.isAuthorized
  simp only [h]

theorem Signature.isAuthorized_of_ok (env : SigEnv) (st : SignatureState)
    (req : HttpRequest) (b : Bool) (st1 : SignatureState) (tr : List String)
    (h : Signature.isAuthorizedTry env st req = (.ok b, st1, tr)) :
    Signature.isAuthorized env st req = (b, st1, tr) := by
  unfold Signature.isAuthorized
  simp only [h]

/-- Claim C6: for every request input, SmartApp _isAuthorized (embedded as
isAuthorizedCaught) and Signature.isAuthorized never throw: every error
raised inside the try body is caught and the call returns false with a
diagnostic logged, so a malformed signature envelope, a key fetch
failure and a certificate parse failure all yield false, a verification
mismatch yields false, and a successful verification yields true (the
first two and last two conjuncts state that the catch clause turns every
error outcome of the try body into the return value false and passes a
clean boolean outcome through unchanged, for both functions). -/
theorem c6_isAuthorized_never_throws : ∀ (env : SigEnv) (st : SigState)
    (sst : SignatureState) (req : HttpRequest),
    (∀ e st1 tr, isAuthorizedTry env st req = (.error e, st1, tr) →
        isAuthorizedCaught env st req = (false, st1, tr))
    ∧ (∀ b st1 tr, isAuthorizedTry env st req = (.ok b, st1, tr) →
        isAuthorizedCaught env st req = (b, st1, tr))
    ∧ (∀ e, env.parseRequest req = .error e →
        (isAuthorizedCaught env st req).1 = false)
    ∧ (∀ p e, env.parseRequest req = .ok p → st.certKeyId ≠ some p.keyId →
        env.fetchCert p.keyId = .error e →
        (isAuthorizedCaught env st req).1 = false)
    ∧ (∀ p ck e, env.parseRequest req = .ok p → st.certKeyId = some p.keyId →
        st.certKey = some ck → env.parseCertificate ck = .error e →
        (isAuthorizedCaught env st req).1 = false)
    ∧ (∀ p ck sk, env.parseRequest req = .ok p → st.certKeyId = some p.keyId →
        st.certKey = some ck → env.parseCertificate ck = .ok sk →
        (isAuthorizedCaught env st req).1 = env.verifySignature p sk)
    ∧ (∀ e st1 tr, Signature.isAuthorizedTry env sst req = (.error e, st1, tr) →
        Signature.isAuthorized env sst req = (false, st1, tr))
    ∧ (∀ b st1 tr, Signature.isAuthorizedTry env sst req = (.ok b, st1, tr) →
        Signature.isAuthorized env sst req = (b, st1, tr)) := by
  intro env st sst req
  refine ⟨?_, ?_, ?_, ?_, ?_, ?_, ?_, ?_⟩
  · intro e st1 tr h
    exact isAuthorizedCaught_of_error env st req e st1 tr h
  · intro b st1 tr h
    exact isAuthorizedCaught_of_ok env st req b st1 tr h
  · intro e hp
    rw [isAuthorizedCaught_of_error env st req e st []
      (isAuthorizedTry_parse_error env st req e hp)]
  · intro p e hp hc hf
    rw [isAuthorizedCaught_of_error env st req e { st with certKeyId := some p.keyId }
      [p.keyId] (isAuthorizedTry_miss_fetch_error env st req p e hp hc hf)]
  · intro p ck e hp hc hk hpc
    rw [isAuthorizedCaught_of_error env st req e st []
      ((isAuthorizedTry_hit env st req p hp hc).trans
        (verifyAgainstCache_parse_error env st p [] ck e hk hpc))]
  · intro p ck sk hp hc hk hpc
    rw [isAuthorizedCaught_of_ok env st req (env.verifySignature p sk) st []
      ((isAuthorizedTry_hit env st req p hp hc).trans
        (verifyAgainstCache_ok env st p [] ck sk hk hpc))]
  · intro e st1 tr h
    exact Signature.isAuthorized_of_error env sst req e st1 tr h
  · intro b st1 tr h
    exact Signature.isAuthorized_of_ok env sst req b st1 tr h

/-- Witness for C6: in an environment where the signature envelope does not
parse, the call returns false (and does not throw). -/
theorem c6_witness :
    (isAuthorizedCaught envParseFail { certKeyId := none, certKey := none }
      { reqId := 0 }).1 = false :=
  (c6_isAuthorized_never_throws envParseFail { certKeyId := none, certKey := none }
      { padlockSignature := true, publicKeyId := none, publicKey := none }
      { reqId := 0 }).2.2.1
    (.parseError "malformed signature envelope") rfl

/-- Claim C7: for two consecutive _isAuthorized calls whose signatures
parse to the same key id, the key server fetch happens at most once
across the two calls; a key id matching the cached one skips the fetch
entirely, and a fetch only ever happens when the incoming key id differs
from the cached one. -/
theorem c7_cached_keyId_skips_fetch : ∀ (env : SigEnv) (st : SigState)
    (req1 req2 : HttpRequest) (p1 p2 : ParsedSignature),
    env.parseRequest req1 = .ok p1 → env.parseRequest req2 = .ok p2 →
    p2.keyId = p1.keyId →
    ((st.certKeyId = some p1.keyId → (isAuthorizedCaught env st req1).2.2 = [])
    ∧ ((isAuthorizedCaught env st req1).2.2 ≠ [] → st.certKeyId ≠ some p1.keyId)
    ∧ (isAuthorizedCaught env (isAuthorizedCaught env st req1).2.1 req2).2.2 = []
    ∧ (isAuthorizedCaught env st req1).2.2.length
        + (isAuthorizedCaught env (isAuthorizedCaught env st req1).2.1 req2).2.2.length
        ≤ 1) := by
  intro env st req1 req2 p1 p2 hp1 hp2 hpk
  have hsecond :
      (isAuthorizedCaught env (isAuthorizedCaught env st req1).2.1 req2).2.2 = [] := by
    refine isAuthorizedCaught_hit_trace env _ req2 p2 hp2 ?_
    rw [isAuthorizedCaught_keyId env st req1 p1 hp1, hpk]
  refine ⟨?_, ?_, hsecond, ?_⟩
  · intro hc
    exact isAuthorizedCaught_hit_trace env st req1 p1 hp1 hc
  · intro hne hc
    exact hne (isAuthorizedCaught_hit_trace env st req1 p1 hp1 hc)
  · rw [hsecond]
    simpa using isAuthorizedCaught_trace_len env st req1

/-- Witness for C7: starting from an empty cache in a fully succeeding
environment, the second call with the same key id performs no fetch and
the two calls together fetch at most once. -/
theorem c7_witness :
    (isAuthorizedCaught envHappy
      (isAuthorizedCaught envHappy { certKeyId := none, certKey := none }
        { reqId := 0 }).2.1 { reqId := 1 }).2.2 = []
    ∧ (isAuthorizedCaught envHappy { certKeyId := none, certKey := none }
        { reqId := 0 }).2.2.length
      + (isAuthorizedCaught envHappy
          (isAuthorizedCaught envHappy { certKeyId := none, certKey := none }
            { reqId := 0 }).2.1 { reqId := 1 }).2.2.length ≤ 1 :=
  ⟨(c7_cached_keyId_skips_fetch envHappy { certKeyId := none, certKey := none }
      { reqId := 0 } { reqId := 1 } { keyId := "key1", sigId := 0 }
      { keyId := "key1", sigId := 0 } rfl rfl rfl).2.2.1,
   (c7_cached_keyId_skips_fetch envHappy { certKeyId := none, certKey := none }
      { reqId := 0 } { reqId := 1 } { keyId := "key1", sigId := 0 }
      { keyId := "key1", sigId := 0 } rfl rfl rfl).2.2.2⟩

/-- Claim C10: in _isAuthorized the cached key id is overwritten with the
incoming key id before the certificate fetch is awaited, so when the
fetch fails the call returns false and leaves the state holding the new
key id with the old (possibly absent) certificate; every later call
parsing to the same key id then hits the key id cache, performs no fetch
(the failed fetch is never retried), and its outcome is computed from the
stale certificate: false when no certificate was ever stored, and
otherwise whatever parsing and verifying the stale certificate yields. -/
theorem c10_failed_fetch_poisons_cache : ∀ (env : SigEnv) (st : SigState)
    (req : HttpRequest) (p : ParsedSignature) (e : JsError),
    env.parseRequest req = .ok p → st.certKeyId ≠ some p.keyId →
    env.fetchCert p.keyId = .error e →
    (isAuthorizedCaught env st req
        = (false, { st with certKeyId := some p.keyId }, [p.keyId])
    ∧ ∀ (req2 : HttpRequest) (p2 : ParsedSignature),
        env.parseRequest req2 = .ok p2 → p2.keyId = p.keyId →
        ((isAuthorizedCaught env { st with certKeyId := some p.keyId } req2).2.2 = []
        ∧ (st.certKey = none →
            isAuthorizedCaught env { st with certKeyId := some p.keyId } req2
              = (false, { st with certKeyId := some p.keyId }, []))
        ∧ ∀ ck, st.certKey = some ck →
            (isAuthorizedCaught env { st with certKeyId := some p.keyId } req2).1
              = (match env.parseCertificate ck with
                 | .ok sk => env.verifySignature p2 sk
                 | .error _ => false))) := by
  intro env st req p e hp hc hf
  refine ⟨isAuthorizedCaught_of_error env st req e _ _
    (isAuthorizedTry_miss_fetch_error env st req p e hp hc hf), ?_⟩
  intro req2 p2 hp2 hpk
  have hhit : ({ st with certKeyId := some p.keyId } : SigState).certKeyId
      = some p2.keyId := by
    simp [hpk]
  refine ⟨isAuthorizedCaught_hit_trace env _ req2 p2 hp2 hhit, ?_, ?_⟩
  · intro hk
    exact isAuthorizedCaught_of_error env _ req2 _ _ _
      ((isAuthorizedTry_hit env _ req2 p2 hp2 hhit).trans
        (verifyAgainstCache_none env _ p2 [] hk))
  · intro ck hk
    cases hpc : env.parseCertificate ck with
    | error e2 =>
      rw [isAuthorizedCaught_of_error env _ req2 e2 _ []
        ((isAuthorizedTry_hit env _ req2 p2 hp2 hhit).trans
          (verifyAgainstCache_parse_error env _ p2 [] ck e2 hk hpc))]
    | ok sk =>
      rw [isAuthorizedCaught_of_ok env _ req2 (env.verifySignature p2 sk) _ []
        ((isAuthorizedTry_hit env _ req2 p2 hp2 hhit).trans
          (verifyAgainstCache_ok env _ p2 [] ck sk hk hpc))]

/-- Witness for C10: with an unreachable key server and an empty cache,
the first call records key1 in the key id cache while returning false,
and the second call with the same key id performs no fetch and returns
false against the absent certificate. -/
theorem c10_witness :
    isAuthorizedCaught envFetchFail { certKeyId := none, certKey := none } { reqId := 0 }
      = (false, { certKeyId := some "key1", certKey := none }, ["key1"])
    ∧ isAuthorizedCaught envFetchFail { certKeyId := some "key1", certKey := none }
        { reqId := 1 }
      = (false, { certKeyId := some "key1", certKey := none }, []) :=
  ⟨(c10_failed_fetch_poisons_cache envFetchFail { certKeyId := none, certKey := none }
      { reqId := 0 } { keyId := "key1", sigId := 0 } (.fetchError "key server unreachable")
      rfl (by decide) rfl).1,
   ((c10_failed_fetch_poisons_cache envFetchFail { certKeyId := none, certKey := none }
      { reqId := 0 } { keyId := "key1", sigId := 0 } (.fetchError "key server unreachable")
      rfl (by decide) rfl).2 { reqId := 1 } { keyId := "key1", sigId := 0 }
      rfl rfl).2.1 rfl⟩

/-- Claim C1 fails on the source: on line 360 of src/lib/api-app.js the
entry point tests if (this._isAuthorized(request)) without await, and the
async call yields a pending Promise object, which is always truthy; so
even a request whose signature verification resolves to false is
dispatched, no context resolution is skipped, and the 401 Forbidden
response branch is unreachable. This theorem evaluates the code on a
request that fails verification: the verifier resolves to false, yet the
entry point dispatches the body. -/
theorem c1_unauthenticated_request_still_dispatched :
    (isAuthorizedCaught envParseFail { certKeyId := none, certKey := none }
      { reqId := 0 }).1 = false
    ∧ handleEventCallback envParseFail { certKeyId := none, certKey := none }
        { reqId := 0 } = HandleEventAction.dispatched :=
  ⟨rfl, rfl⟩

/-! Helper lemmas about the dispatcher aggregation. -/

theorem promiseAll_all_ok : ∀ (l : List (Except JsError Unit)),
    (∀ r ∈ l, r = .ok ()) → promiseAll l = .ok (l.map fun _ => ()) := by
  intro l
  induction l with
  | nil => intro h; rfl
  | cons r rest ih =>
    intro h
    have hr : r = .ok () := h r (List.mem_cons_self _ _)
    have hrest := ih fun x hx => h x (List.mem_cons_of_mem _ hx)
    subst hr
    simp [promiseAll, hrest]

theorem promiseAll_error_of_mem : ∀ (l : List (Except JsError Unit)) (e : JsError),
    Except.error e ∈ l → ∃ e2, promiseAll l = .error e2 := by
  intro l e
  induction l with
  | nil => intro h; simp at h
  | cons r rest ih =>
    intro h
    cases r with
    | error e1 => exact ⟨e1, by simp [promiseAll]⟩
    | ok a =>
      have hmem : Except.error e ∈ rest := by
        rcases List.mem_cons.mp h with h1 | h2
        · simp at h1
        · exact h2
      obtain ⟨e2, he2⟩ := ih hmem
      exact ⟨e2, by simp [promiseAll, he2]⟩

/-- Counterexample to claim C2 as stated: in an EVENT envelope with two
collected scheduled handlers of which the first rejects, the dispatcher
does not emit exactly one response after all results settle; the
Promise.all barrier rejects with the first failure and respond is never
called, so the dispatch produces an error and no response at all. -/
theorem c2_counterexample_rejection_suppresses_response :
    handleEventBody c2Env c2Data = .error (.typeError "handler one rejected")
    ∧ handleEventBody c2Env c2Data
        ≠ .ok [{ statusCode := 200, eventData := [] }] := by
  refine ⟨rfl, ?_⟩
  intro h
  rw [show handleEventBody c2Env c2Data
        = .error (.typeError "handler one rejected") from rfl] at h
  exact Except.noConfusion h

/-- Claim C2 amended: for every EVENT envelope whose context fetch
succeeds and whose event loop collects its handler results without a
synchronous error, the dispatcher emits exactly one response, with
statusCode 200 and empty eventData, when every collected result fulfils;
when any collected result rejects, Promise.all rejects, the remaining
completions are not awaited, and no response is emitted (the dispatch
fails with a rejection instead). -/
theorem c2_amended_single_response_only_when_all_fulfil :
    ∀ (env : DispatchEnv) (d : EventData) (results : List (Except JsError Unit)),
    env.contextStoreGet d.installedAppId = .ok () →
    collectResults env d.events = .ok results →
    (((∀ r ∈ results, r = .ok ()) →
        handleEventBody env d = .ok [{ statusCode := 200, eventData := [] }])
    ∧ (∀ e, Except.error e ∈ results →
        ∃ e2, handleEventBody env d = .error e2)) := by
  intro env d results hctx hcol
  constructor
  · intro hall
    unfold handleEventBody
    simp only [hctx, hcol, promiseAll_all_ok results hall]
  · intro e hmem
    obtain ⟨e2, he2⟩ := promiseAll_error_of_mem results e hmem
    refine ⟨e2, ?_⟩
    unfold handleEventBody
    simp only [hctx, hcol, he2]

/-- Witness for the amended C2: with both handlers fulfilling, the same
envelope produces exactly the single 200 response. -/
theorem c2_amended_witness :
    handleEventBody c2GoodEnv c2Data = .ok [{ statusCode := 200, eventData := [] }] :=
  (c2_amended_single_response_only_when_all_fulfil c2GoodEnv c2Data
      [.ok (), .ok ()] rfl rfl).1 (by intro r hr; simpa using hr)

theorem commandInvocations_all_default (env : DispatchEnv) (deviceId : String) :
    ∀ (cmds : List DeviceCommand), (∀ cmd ∈ cmds, resolveCommand env cmd = none) →
      ((cmds.filterMap fun cmd => (resolveCommand env cmd).map fun kh =>
          CommandInvocation.keyed kh.2 kh.1 deviceId cmd) = []
      ∧ (cmds.filterMap fun cmd =>
          match resolveCommand env cmd with
          | some _ => none
          | none => some (CommandInvocation.defaultHandler deviceId cmd))
        = cmds.map fun cmd => CommandInvocation.defaultHandler deviceId cmd) := by
  intro cmds
  induction cmds with
  | nil => intro h; exact ⟨rfl, rfl⟩
  | cons c cs ih =>
    intro h
    have hc := h c (List.mem_cons_self _ _)
    have ihr := ih fun x hx => h x (List.mem_cons_of_mem _ hx)
    constructor
    · simp only [List.filterMap_cons, hc, Option.map_none', ihr.1]
    · simp only [List.filterMap_cons, hc, ihr.2, List.map_cons]

/-- Claim C8: for a DEVICE_COMMANDS_EVENT, a registered catch-all handler
is invoked once with the whole commands event and collected; otherwise
each command resolves its handler by the component scoped key first with
fallback to the capability scoped key; when nothing is registered, the
default device command handler is invoked once per command and its
result is not collected; and processing the event never throws (the
event loop step always returns a clean list of collected results). -/
theorem c8_device_commands_dispatch : ∀ (env : DispatchEnv) (dce : DeviceCommandsEvent),
    (∀ h, env.deviceCommandHandler = some h →
        commandInvocations env dce = ([.catchAll h dce], [])
        ∧ eventResults env (.deviceCommandsEvent dce) = .ok [env.run h])
    ∧ (∀ cmd h, env.deviceCommands.lookup (compKey cmd) = some h →
        resolveCommand env cmd = some (compKey cmd, h))
    ∧ (∀ cmd h, env.deviceCommands.lookup (compKey cmd) = none →
        env.deviceCommands.lookup (capKey cmd) = some h →
        resolveCommand env cmd = some (capKey cmd, h))
    ∧ (env.deviceCommandHandler = none →
        (∀ cmd ∈ dce.commands, resolveCommand env cmd = none) →
        commandInvocations env dce
          = ([], dce.commands.map fun cmd =>
              CommandInvocation.defaultHandler dce.deviceId cmd))
    ∧ (∃ rs, eventResults env (.deviceCommandsEvent dce) = .ok rs) := by
  intro env dce
  refine ⟨?_, ?_, ?_, ?_, ⟨_, rfl⟩⟩
  · intro h hcatch
    have h1 : commandInvocations env dce = ([CommandInvocation.catchAll h dce], []) := by
      unfold commandInvocations
      simp only [hcatch]
    refine ⟨h1, ?_⟩
    show Except.ok ((commandInvocations env dce).1.map fun inv => env.run inv.handlerId)
        = Except.ok [env.run h]
    rw [h1]
    rfl
  · intro cmd h hcomp
    unfold resolveCommand
    simp only [hcomp]
  · intro cmd h hcomp hcap
    unfold resolveCommand
    simp only [hcomp, hcap]
  · intro hnone hall
    have hd := commandInvocations_all_default env dce.deviceId dce.commands hall
    unfold commandInvocations
    simp only [hnone]
    rw [hd.1, hd.2]

/-- Witness for C8, the worked example of the claim: the command with
componentId main, capability switch and command on, with a handler
registered under switch/on but none under main/switch/on, resolves to the
capability scoped fallback handler. -/
theorem c8_witness :
    resolveCommand c8Env c8Cmd = some ("switch/on", 7) :=
  (c8_device_commands_dispatch c8Env c8Dce).2.2.1 c8Cmd 7 rfl rfl

/-- Claim C3 fails on the source, evaluated at the failing input: updating
the dot path a.b.c to 5 on a loaded instance performs one store update
whose payload carries, under state, an object with the single literal
property key named name holding 5 — the source writes a plain, not
computed, property key, so neither the dot path nor the full resulting
nested structure ever reaches the store — and the in-memory cache write
then throws a TypeError, because putSegmentedName is invoked as a plain
function whose receiver is undefined in a strict mode module, so no cache
level is ever created. -/
theorem c3_update_wrong_payload_and_throws :
    (IsaState.update c3State "a.b.c" (.num 5)).1
      = [{ installedAppId := "ia1",
           payload := .obj [("state", .obj [("name", .num 5)])] }]
    ∧ (IsaState.update c3State "a.b.c" (.num 5)).2
      = .error (.typeError "cannot read properties of undefined") :=
  ⟨rfl, rfl⟩

/-- Claim C4 fails on the source, evaluated at the failing input: on a
loaded instance, update of a.b.c to 5 throws before touching the cache
(putSegmentedName runs with an undefined receiver), so the claimed
read-after-write cannot happen; and independently, get with a dot path
name performs one flat property access using the whole string a.b.c as
the key, so even on a cache that already holds the properly nested
structure it returns undefined rather than 5 — while indeed performing
zero store fetches, the only part of the claim the code does satisfy. -/
theorem c4_read_after_write_broken :
    (IsaState.update c3State "a.b.c" (.num 5)).2
      = .error (.typeError "cannot read properties of undefined")
    ∧ (IsaState.get c4StoreDown { installedAppId := "ia1", cache := some c4Nested }
        (some "a.b.c")).2 = 0
    ∧ (IsaState.get c4StoreDown { installedAppId := "ia1", cache := some c4Nested }
        (some "a.b.c")).1
      = .ok (.undefined, { installedAppId := "ia1", cache := some c4Nested }) :=
  ⟨rfl, rfl, rfl⟩

/-- Claim C5 fails on the source, evaluated at a concrete dispatch: line
510 of the ApiContext constructor is the bare expression statement
this.apiMutex with no assignment, so a context built from an EVENT body
with the dispatch mutex numbered 1 does not retain that mutex (the field
stays undefined), and the api client later materialized by getApi is
handed an undefined apiMutex rather than the dispatch mutex. -/
theorem c5_mutex_not_retained :
    c5Ctx.apiMutex = none
    ∧ (ApiContext.getApi ctxApp ctxStoreOk c5Ctx).map (fun r => r.1.apiMutex)
      = .ok none :=
  ⟨rfl, rfl⟩

/-- Claim C9: getApi returns the memoized client with no store fetch when
one exists; when absent it fetches the context record exactly once,
constructs the client, memoizes it, and any later getApi call on the
resulting context returns that same client object with zero further
store fetches. -/
theorem c9_getApi_memoizes_once : ∀ (app : AppConfig)
    (storeGet : Option String → Except JsError CtxStoreRecord) (ctx : ApiContextData),
    (∀ api, ctx.api = some api →
        ApiContext.getApi app storeGet ctx = .ok (api, ctx, 0))
    ∧ (ctx.api = none → ∀ data, storeGet ctx.installedAppId = .ok data →
        ApiContext.getApi app storeGet ctx
          = .ok (ApiContext.newApi app data ctx, ApiContext.afterGetApi app data ctx, 1)
        ∧ (ApiContext.afterGetApi app data ctx).api = some (ApiContext.newApi app data ctx)
        ∧ ApiContext.getApi app storeGet (ApiContext.afterGetApi app data ctx)
          = .ok (ApiContext.newApi app data ctx, ApiContext.afterGetApi app data ctx, 0)) := by
  intro app storeGet ctx
  constructor
  · intro api hapi
    unfold ApiContext.getApi
    simp only [hapi]
  · intro hnone data hdata
    refine ⟨?_, rfl, ?_⟩
    · unfold ApiContext.getApi
      simp only [hnone, hdata]
    · unfold ApiContext.getApi
      rfl

/-- Witness for C9: a context without a memoized client fetches once and
memoizes; the resulting context answers the next call with the same
client and zero fetches. -/
theorem c9_witness :
    ApiContext.getApi ctxApp ctxStoreOk c9CtxEmpty = .ok (c9Api, c9CtxLoaded, 1)
    ∧ ApiContext.getApi ctxApp ctxStoreOk c9CtxLoaded = .ok (c9Api, c9CtxLoaded, 0) :=
  ⟨rfl, (c9_getApi_memoizes_once ctxApp ctxStoreOk c9CtxLoaded).1 c9Api rfl⟩
